import Mathlib

/-!
Shallow embedding of the MLB sabermetrics engine
(src/src/sabermetrics_engine.py, class SabermetricsEngine).

Numbers in raw stat records and metric outputs are modelled as exact
rationals (ℚ).  Python dict lookups `stats.get(key, 0)` become structure
fields defaulting to 0; the one key that is read with two different
defaults in the source, the singles key `'1B'`, is modelled as an
`Option ℚ` field so that key absence is observable.  Python float
division raises `ZeroDivisionError` on a zero divisor; the only divisors
in the engine that are not guarded by a positivity test are the
caller-supplied `park_factor` in `calculate_wrc_plus` and
`calculate_ops_plus`, so those two functions return `Option ℚ`, `none`
standing for the raised exception.  All other divisions are of the shape
`a / d if d > 0 else 0` in the source and are total.

The engine's constants (`league_constants`, `woba_weights`) are fixed at
construction; they are modelled as top-level immutable definitions.
-/

/-- A raw batting record: Python dict from stat code to number, with
missing keys read as 0.  The `'1B'` key is optional (observably absent). -/
structure BattingStats where
  AB : ℚ := 0
  H : ℚ := 0
  BB : ℚ := 0
  IBB : ℚ := 0
  HBP : ℚ := 0
  SF : ℚ := 0
  K : ℚ := 0
  oneB : Option ℚ := none
  twoB : ℚ := 0
  threeB : ℚ := 0
  HR : ℚ := 0
deriving DecidableEq

/-- A raw pitching record. -/
structure PitchingStats where
  IP : ℚ := 0
  ER : ℚ := 0
  H : ℚ := 0
  BB : ℚ := 0
  K : ℚ := 0
  HR : ℚ := 0
  HBP : ℚ := 0
deriving DecidableEq

/-- Source `self.woba_weights` (2023 linear weights), lines 29-36 of the source. -/
structure LinearWeights where
  uBB : ℚ
  HBP : ℚ
  oneB : ℚ
  twoB : ℚ
  threeB : ℚ
  HR : ℚ

def woba_weights : LinearWeights :=
  { uBB := 69/100, HBP := 722/1000, oneB := 888/1000
    twoB := 1271/1000, threeB := 1616/1000, HR := 2101/1000 }

/-- Source `self.league_constants`, lines 19-26 of the source. -/
structure LeagueConstants where
  wOBA_scale : ℚ
  wOBA_league : ℚ
  R_per_game_league : ℚ
  wRC_league : ℚ
  FIP_constant : ℚ
  park_factor_neutral : ℚ

def league_constants : LeagueConstants :=
  { wOBA_scale := 1255/1000, wOBA_league := 320/1000, R_per_game_league := 465/100
    wRC_league := 100, FIP_constant := 310/100, park_factor_neutral := 1 }

/-- Line 58: `stats.get('1B', h - stats.get('2B',0) - stats.get('3B',0) - stats.get('HR',0))`,
the singles resolution used by `calculate_basic_stats`. -/
def basicSingles (s : BattingStats) : ℚ :=
  s.oneB.getD (s.H - s.twoB - s.threeB - s.HR)

/-- Line 71: `stats.get('1B', 0)`, the singles resolution used by `calculate_woba`. -/
def wobaSingles (s : BattingStats) : ℚ :=
  s.oneB.getD 0

/-- The dict returned by `calculate_basic_stats`. -/
structure BasicStats where
  AVG : ℚ
  OBP : ℚ
  SLG : ℚ
  OPS : ℚ
deriving DecidableEq

/-- Source method `calculate_basic_stats`, lines 38-65. -/
def calculate_basic_stats (s : BattingStats) : BasicStats :=
  let pa := s.AB + s.BB + s.SF + s.HBP
  let avg := if 0 < s.AB then s.H / s.AB else 0
  let obp := if 0 < pa then (s.H + s.BB + s.HBP) / pa else 0
  let total_bases := basicSingles s + 2 * s.twoB + 3 * s.threeB + 4 * s.HR
  let slg := if 0 < s.AB then total_bases / s.AB else 0
  { AVG := avg, OBP := obp, SLG := slg, OPS := obp + slg }

/-- Source method `calculate_woba`, lines 67-89.  Note line 69 rebinds `bb` to
`BB - IBB`, so both the numerator and the denominator on line 87 use
unintentional walks. -/
def calculate_woba (s : BattingStats) : ℚ :=
  let bb := s.BB - s.IBB
  let numerator := woba_weights.uBB * bb + woba_weights.HBP * s.HBP +
    woba_weights.oneB * wobaSingles s + woba_weights.twoB * s.twoB +
    woba_weights.threeB * s.threeB + woba_weights.HR * s.HR
  let denominator := s.AB + bb + s.SF + s.HBP
  if 0 < denominator then numerator / denominator else 0

/-- The value computed by the body of `calculate_wrc_plus` (lines 91-100)
when the division does not raise. -/
def wrcPlusVal (s : BattingStats) (park_factor : ℚ) : ℚ :=
  ((calculate_woba s - league_constants.wOBA_league) /
    league_constants.wOBA_scale +
    league_constants.R_per_game_league) * 100 / park_factor

/-- Source method `calculate_wrc_plus`, lines 91-100.  The division `* 100 / park_factor`
is unguarded, so `park_factor = 0` raises `ZeroDivisionError` (`none`);
any nonzero `park_factor`, negative included, returns a plain float. -/
def calculate_wrc_plus (s : BattingStats) (park_factor : ℚ) : Option ℚ :=
  if park_factor = 0 then none else some (wrcPlusVal s park_factor)

/-- Source method `calculate_babip`, lines 102-113. -/
def calculate_babip (s : BattingStats) : ℚ :=
  let balls_in_play := s.AB - s.K - s.HR + s.SF
  let hits_in_play := s.H - s.HR
  if 0 < balls_in_play then hits_in_play / balls_in_play else 0

/-- Source method `calculate_iso`, lines 115-118. -/
def calculate_iso (s : BattingStats) : ℚ :=
  (calculate_basic_stats s).SLG - (calculate_basic_stats s).AVG

/-- The value computed by the body of `calculate_ops_plus` (lines 142-151)
when the division by `park_factor` does not raise.  A non-positive
`league_obp` or `league_slg` substitutes a ratio of 1 (the `else 1`
branches on lines 147-148). -/
def opsPlusVal (s : BattingStats) (park_factor league_obp league_slg : ℚ) : ℚ :=
  let basic := calculate_basic_stats s
  let obp_ratio := if 0 < league_obp then basic.OBP / league_obp else 1
  let slg_ratio := if 0 < league_slg then basic.SLG / league_slg else 1
  100 * (obp_ratio + slg_ratio - 1) / park_factor

/-- Source method `calculate_ops_plus`, lines 142-151.  Only `park_factor = 0` raises
(`none`); zero league baselines are silently replaced by ratio 1. -/
def calculate_ops_plus (s : BattingStats) (park_factor league_obp league_slg : ℚ) :
    Option ℚ :=
  if park_factor = 0 then none else some (opsPlusVal s park_factor league_obp league_slg)

/-- The metric names produced by `calculate_comprehensive_player_metrics`
(keys of the returned dict, lines 153-173). -/
inductive MetricName where
  | AVG | OBP | SLG | OPS | wOBA | wRCplus | BABIP | ISO | OPSplus
  | BB_Rate | K_Rate
deriving DecidableEq

/-- The metric values assembled by `calculate_comprehensive_player_metrics`
when no division raises (i.e. when `park_factor ≠ 0`).  `OPS+` is called
with its default league baselines 0.320 and 0.425 (line 167). -/
def comprehensiveVal (s : BattingStats) (park_factor : ℚ) : MetricName → ℚ
  | .AVG => (calculate_basic_stats s).AVG
  | .OBP => (calculate_basic_stats s).OBP
  | .SLG => (calculate_basic_stats s).SLG
  | .OPS => (calculate_basic_stats s).OPS
  | .wOBA => calculate_woba s
  | .wRCplus => wrcPlusVal s park_factor
  | .BABIP => calculate_babip s
  | .ISO => calculate_iso s
  | .OPSplus => opsPlusVal s park_factor (320/1000) (425/1000)
  | .BB_Rate => if 0 < s.AB + s.BB then s.BB / (s.AB + s.BB) else 0
  | .K_Rate => if 0 < s.AB + s.BB then s.K / (s.AB + s.BB) else 0

/-- Source method `calculate_comprehensive_player_metrics`, lines 153-173.  The single
unguarded division in its call graph is wRC+'s `/ park_factor`, so the
call raises exactly when `park_factor = 0` (`none`). -/
def calculate_comprehensive_player_metrics (s : BattingStats) (park_factor : ℚ) :
    Option (MetricName → ℚ) :=
  if park_factor = 0 then none else some (comprehensiveVal s park_factor)

/-- The dict returned by `calculate_pitcher_metrics`.  The source key
`K_BB_ratio` is field `KBB` here. -/
structure PitcherMetrics where
  ERA : ℚ
  WHIP : ℚ
  FIP : ℚ
  K_per_9 : ℚ
  BB_per_9 : ℚ
  HR_per_9 : ℚ
  KBB : ℚ
deriving DecidableEq

/-- Source method `calculate_pitcher_fip`, lines 120-132. -/
def calculate_pitcher_fip (p : PitchingStats) : ℚ :=
  if p.IP ≤ 0 then 0
  else (13 * p.HR + 3 * (p.BB + p.HBP) - 2 * p.K) / p.IP +
    league_constants.FIP_constant

/-- Source method `calculate_pitcher_whip`, lines 134-140. -/
def calculate_pitcher_whip (p : PitchingStats) : ℚ :=
  if 0 < p.IP then (p.BB + p.H) / p.IP else 0

/-- Source method `calculate_pitcher_metrics`, lines 175-203.  Line 201 is
`k / bb if bb > 0 else k if k > 0 else 0`. -/
def calculate_pitcher_metrics (p : PitchingStats) : PitcherMetrics :=
  { ERA := if 0 < p.IP then p.ER * 9 / p.IP else 0
    WHIP := calculate_pitcher_whip p
    FIP := calculate_pitcher_fip p
    K_per_9 := if 0 < p.IP then p.K * 9 / p.IP else 0
    BB_per_9 := if 0 < p.IP then p.BB * 9 / p.IP else 0
    HR_per_9 := if 0 < p.IP then p.HR * 9 / p.IP else 0
    KBB := if 0 < p.BB then p.K / p.BB else if 0 < p.K then p.K else 0 }

/-- One entry of the comparison dict built by `compare_players`
(lines 217-222). -/
structure Comparison where
  player1 : ℚ
  player2 : ℚ
  difference : ℚ
  player1_better : Bool
deriving DecidableEq

/-- The entry `compare_players` builds for one metric name.  Both players'
metrics come from `calculate_comprehensive_player_metrics` with the
default `park_factor = 1` (lines 211-212), which never raises.  Since
`MetricName` enumerates exactly the keys the comprehensive dict always
contains, the `if metric in p1_metrics and metric in p2_metrics` test on
line 216 always succeeds. -/
def compareMetric (s1 s2 : BattingStats) (m : MetricName) : Comparison :=
  let v1 := comprehensiveVal s1 1 m
  let v2 := comprehensiveVal s2 1 m
  { player1 := v1, player2 := v2, difference := v1 - v2
    player1_better := decide (v2 < v1) }

/-- Default metric list of `compare_players`, line 209. -/
def defaultCompareMetrics : List MetricName :=
  [.AVG, .OBP, .SLG, .OPS, .wOBA, .wRCplus, .BABIP, .ISO]

/-- Source method `compare_players`, lines 205-224, for a requested list of metric names. -/
def compare_players (s1 s2 : BattingStats) (metrics : List MetricName) :
    List (MetricName × Comparison) :=
  metrics.map (fun m => (m, compareMetric s1 s2 m))

/-- A generic stat dict, the type of the never-read `fielding_stats`
parameter of `calculate_war_approximation`. -/
def StatDict : Type := List (String × ℚ)

/-- Source lookup `position_adjustments.get(position, 0)`, lines 242-247. -/
def position_adjustments (position : String) : ℚ :=
  if position = "C" then 125/10
  else if position = "1B" then -125/10
  else if position = "2B" then 25/10
  else if position = "3B" then 25/10
  else if position = "SS" then 75/10
  else if position = "LF" then -75/10
  else if position = "CF" then 25/10
  else if position = "RF" then -75/10
  else if position = "DH" then -175/10
  else 0

set_option linter.unusedVariables false in
/-- Source method `calculate_war_approximation`, lines 226-254.  The `fielding_stats`
parameter is accepted (default `None`) but never read by the body; the
wRC+ call uses the default `park_factor = 1` and so never raises. -/
def calculate_war_approximation (batting : BattingStats)
    (fielding : Option StatDict) (position : String) : ℚ :=
  let wrc_plus := wrcPlusVal batting 1
  let pa := batting.AB + batting.BB + batting.SF + batting.HBP
  let offensive_value := ((wrc_plus - 100) / 100) * (pa / 700) * 20
  let position_adj := position_adjustments position * (pa / 700)
  let replacement_level := 2 * (pa / 700)
  max 0 (offensive_value + position_adj + replacement_level)

/-- Modelled from the claim C3 wording, for comparison with the source
function: wOBA with the record's total walks `BB` in the denominator
(`AB + BB + SF + HBP`), the numerator unchanged. -/
def wobaTotalWalksDen (s : BattingStats) : ℚ :=
  let bb := s.BB - s.IBB
  let numerator := woba_weights.uBB * bb + woba_weights.HBP * s.HBP +
    woba_weights.oneB * wobaSingles s + woba_weights.twoB * s.twoB +
    woba_weights.threeB * s.threeB + woba_weights.HR * s.HR
  let denominator := s.AB + s.BB + s.SF + s.HBP
  if 0 < denominator then numerator / denominator else 0

/-- Modelled from the claim C6 wording, for comparison with the source
function: singles resolved as `H - 2B - 3B - HR` when the `'1B'` key is
absent, with a negative result treated as 0. -/
def claimedSingles (s : BattingStats) : ℚ :=
  s.oneB.getD (max 0 (s.H - s.twoB - s.threeB - s.HR))

/-- Modelled from the claim C6 wording, for comparison with the source
function: wOBA whose numerator resolves singles via `claimedSingles`. -/
def wobaClaimedSingles (s : BattingStats) : ℚ :=
  let bb := s.BB - s.IBB
  let numerator := woba_weights.uBB * bb + woba_weights.HBP * s.HBP +
    woba_weights.oneB * claimedSingles s + woba_weights.twoB * s.twoB +
    woba_weights.threeB * s.threeB + woba_weights.HR * s.HR
  let denominator := s.AB + bb + s.SF + s.HBP
  if 0 < denominator then numerator / denominator else 0

/-- The all-zero batting record (every key 0, `'1B'` absent). -/
def zeroRecord : BattingStats := { }

/-- A record with intentional walks: `{AB: 1, H: 1, '1B': 1, BB: 2, IBB: 1}`. -/
def ibbRecord : BattingStats := { AB := 1, H := 1, BB := 2, IBB := 1, oneB := some 1 }

/-- A record with a walk but no at-bat: `{BB: 1}`. -/
def walkOnlyRecord : BattingStats := { BB := 1 }

/-- A record with one hit and no `'1B'` key: `{AB: 1, H: 1}`. -/
def singleHitRecord : BattingStats := { AB := 1, H := 1 }

/-- An inconsistent record (`H < 2B`) lacking the `'1B'` key:
`{AB: 1, '2B': 1}`. -/
def inconsistentRecord : BattingStats := { AB := 1, twoB := 1 }

/-- Pitcher with strikeouts and walks: `{BB: 2, K: 6}`. -/
def strikeoutPitcher : PitchingStats := { BB := 2, K := 6 }

/-- Pitcher with strikeouts and no walks: `{K: 6}`. -/
def noWalkPitcher : PitchingStats := { K := 6 }

/-- Pitcher with neither strikeouts nor walks. -/
def zeroPitcher : PitchingStats := { }

/-! ## Claim theorems -/

/-- Claim C1, counterexample: on the all-zero record,
`calculate_comprehensive_player_metrics` returns a mapping whose `wRC+`
entry is `110315/251 ≈ 439.5`, not `0`, refuting "every metric in the
returned mapping equals 0". -/
theorem c1_counterexample :
    (calculate_comprehensive_player_metrics zeroRecord 1).map
        (fun f => f MetricName.wRCplus) = some (110315/251) ∧
    (calculate_comprehensive_player_metrics zeroRecord 1).map
        (fun f => f MetricName.wRCplus) ≠ some 0 := by
  have h : comprehensiveVal zeroRecord 1 MetricName.wRCplus = 110315/251 := by
    norm_num [comprehensiveVal, wrcPlusVal, calculate_woba, wobaSingles,
      zeroRecord, woba_weights, league_constants]
  refine ⟨?_, ?_⟩ <;>
    simp [calculate_comprehensive_player_metrics, h]

/-- Claim C1, amended: on the all-zero record,
`calculate_comprehensive_player_metrics` raises no exception, and the
metrics `AVG, OBP, SLG, OPS, wOBA, BABIP, ISO, BB_Rate, K_Rate` all
equal `0`; however `wRC+` equals `110315/251 ≈ 439.5` (the wRC+ formula
evaluated at `wOBA = 0`) and `OPS+` equals `-100`. -/
theorem c1_amended :
    (calculate_comprehensive_player_metrics zeroRecord 1).isSome = true ∧
    comprehensiveVal zeroRecord 1 MetricName.AVG = 0 ∧
    comprehensiveVal zeroRecord 1 MetricName.OBP = 0 ∧
    comprehensiveVal zeroRecord 1 MetricName.SLG = 0 ∧
    comprehensiveVal zeroRecord 1 MetricName.OPS = 0 ∧
    comprehensiveVal zeroRecord 1 MetricName.wOBA = 0 ∧
    comprehensiveVal zeroRecord 1 MetricName.BABIP = 0 ∧
    comprehensiveVal zeroRecord 1 MetricName.ISO = 0 ∧
    comprehensiveVal zeroRecord 1 MetricName.BB_Rate = 0 ∧
    comprehensiveVal zeroRecord 1 MetricName.K_Rate = 0 ∧
    comprehensiveVal zeroRecord 1 MetricName.wRCplus = 110315/251 ∧
    comprehensiveVal zeroRecord 1 MetricName.OPSplus = -100 := by
  refine ⟨by simp [calculate_comprehensive_player_metrics], ?_, ?_, ?_, ?_,
    ?_, ?_, ?_, ?_, ?_, ?_, ?_⟩ <;>
    norm_num [comprehensiveVal, calculate_basic_stats, basicSingles,
      calculate_woba, wobaSingles, calculate_babip, calculate_iso,
      wrcPlusVal, opsPlusVal, zeroRecord, woba_weights, league_constants]

/-- Claim C2, counterexample: a negative `park_factor` of `-1` passed to
`calculate_wrc_plus` raises nothing and returns the plain finite value
`-110315/251`, refuting "park_factor equal to 0 or negative
raises/returns an explicit misconfiguration error". -/
theorem c2_counterexample :
    calculate_wrc_plus zeroRecord (-1) = some (-(110315/251)) := by
  norm_num [calculate_wrc_plus, wrcPlusVal, calculate_woba, wobaSingles,
    zeroRecord, woba_weights, league_constants]

/-- Claim C2, amended: neither `calculate_wrc_plus` nor
`calculate_ops_plus` validates `park_factor`; the division by
`park_factor` is unguarded, so `park_factor = 0` raises an unhandled
`ZeroDivisionError` (modelled as `none`, not a dedicated
misconfiguration error), while any nonzero `park_factor` — negative
included — silently returns a finite value. -/
theorem c2_amended (s : BattingStats) (league_obp league_slg park_factor : ℚ)
    (h : park_factor ≠ 0) :
    calculate_wrc_plus s 0 = none ∧
    calculate_ops_plus s 0 league_obp league_slg = none ∧
    (calculate_wrc_plus s park_factor).isSome = true ∧
    (calculate_ops_plus s park_factor league_obp league_slg).isSome = true := by
  refine ⟨?_, ?_, ?_, ?_⟩ <;> simp [calculate_wrc_plus, calculate_ops_plus, h]

/-- Claim C2, witness for the amended theorem at the all-zero record with
`park_factor = -1`. -/
theorem c2_amended_witness :
    calculate_wrc_plus zeroRecord 0 = none ∧
    calculate_ops_plus zeroRecord 0 (320/1000) (425/1000) = none ∧
    (calculate_wrc_plus zeroRecord (-1)).isSome = true ∧
    (calculate_ops_plus zeroRecord (-1) (320/1000) (425/1000)).isSome = true :=
  c2_amended zeroRecord (320/1000) (425/1000) (-1) (by norm_num)

/-- Claim C3, counterexample: on `{AB: 1, H: 1, '1B': 1, BB: 2, IBB: 1}`
the source `calculate_woba` divides by `AB + uBB + SF + HBP = 2` (the
local `bb` on line 69 is rebound to `BB - IBB`), giving `789/1000`,
whereas the claimed denominator `AB + BB + SF + HBP = 3` (total walks)
would give `263/500`. -/
theorem c3_counterexample :
    calculate_woba ibbRecord = 789/1000 ∧
    wobaTotalWalksDen ibbRecord = 263/500 ∧
    calculate_woba ibbRecord ≠ wobaTotalWalksDen ibbRecord := by
  refine ⟨?_, ?_, ?_⟩ <;>
    norm_num [calculate_woba, wobaTotalWalksDen, wobaSingles, ibbRecord,
      woba_weights]

/-- Claim C3, amended: `calculate_woba` returns the linear-weighted sum of
`uBB, HBP, 1B, 2B, 3B, HR` divided by `AB + uBB + SF + HBP`, where
`uBB = BB - IBB` is used in the denominator as well as the numerator
(not the record's total walks), when that denominator is positive, and
`0` otherwise. -/
theorem c3_amended (s : BattingStats) :
    calculate_woba s =
      if 0 < s.AB + (s.BB - s.IBB) + s.SF + s.HBP then
        (69/100 * (s.BB - s.IBB) + 722/1000 * s.HBP +
          888/1000 * s.oneB.getD 0 + 1271/1000 * s.twoB +
          1616/1000 * s.threeB + 2101/1000 * s.HR) /
          (s.AB + (s.BB - s.IBB) + s.SF + s.HBP)
      else 0 :=
  rfl

/-- Claim C4, counterexample: `league_obp = 0` and `league_slg = 0` passed
to `calculate_ops_plus` raise nothing; both ratios are silently replaced
by `1` and the call returns the plain value
`100 * (1 + 1 - 1) / 1 = 100`, refuting "raises/returns an explicit
misconfiguration error". -/
theorem c4_counterexample :
    calculate_ops_plus zeroRecord 1 0 0 = some 100 := by
  norm_num [calculate_ops_plus, opsPlusVal, calculate_basic_stats,
    basicSingles, zeroRecord]

/-- Claim C4, amended: `calculate_ops_plus` does not fail fast on zero
league baselines; a non-positive `league_obp` substitutes an OBP ratio
of `1` (and symmetrically for `league_slg`), and the call returns a
plain value whenever `park_factor ≠ 0`. -/
theorem c4_amended (s : BattingStats) (park_factor league_slg : ℚ)
    (h : park_factor ≠ 0) :
    calculate_ops_plus s park_factor 0 league_slg =
      some (100 * (1 +
        (if 0 < league_slg then (calculate_basic_stats s).SLG / league_slg else 1)
        - 1) / park_factor) := by
  simp [calculate_ops_plus, opsPlusVal, h]

/-- Claim C4, witness for the amended theorem: the all-zero record with
`league_obp = 0` and the default `league_slg = 0.425` yields `some 0`,
not an error. -/
theorem c4_amended_witness :
    calculate_ops_plus zeroRecord 1 0 (425/1000) = some 0 := by
  have h := c4_amended zeroRecord 1 (425/1000) (by norm_num)
  rw [h]
  norm_num [calculate_basic_stats, basicSingles, zeroRecord]

/-- Claim C5, counterexample: the record `{BB: 1}` has `AB = 0`, yet
`calculate_basic_stats` returns `OBP = 1` (OBP divides by plate
appearances `AB + BB + SF + HBP = 1`, not by `AB`), refuting
"AVG = OBP = SLG = OPS = 0 regardless of the other stats". -/
theorem c5_counterexample :
    walkOnlyRecord.AB = 0 ∧
    (calculate_basic_stats walkOnlyRecord).OBP = 1 ∧
    (calculate_basic_stats walkOnlyRecord).OBP ≠ 0 := by
  refine ⟨?_, ?_, ?_⟩ <;>
    norm_num [calculate_basic_stats, basicSingles, walkOnlyRecord]

/-- Claim C5, amended: for every record with `AB = 0`,
`calculate_basic_stats` returns `AVG = SLG = 0` and `calculate_iso`
returns `0`, but `OBP` (and hence `OPS`, which equals `OBP` here) is `0`
only when `BB + SF + HBP ≤ 0`; when `BB + SF + HBP > 0`, `OBP` equals
`(H + BB + HBP) / (BB + SF + HBP)`. -/
theorem c5_amended (s : BattingStats) (h : s.AB = 0) :
    (calculate_basic_stats s).AVG = 0 ∧
    (calculate_basic_stats s).SLG = 0 ∧
    calculate_iso s = 0 ∧
    (calculate_basic_stats s).OBP =
      (if 0 < s.BB + s.SF + s.HBP then
        (s.H + s.BB + s.HBP) / (s.BB + s.SF + s.HBP) else 0) ∧
    (calculate_basic_stats s).OPS = (calculate_basic_stats s).OBP := by
  refine ⟨?_, ?_, ?_, ?_, ?_⟩ <;>
    simp [calculate_basic_stats, calculate_iso, h]

/-- Claim C5, witness for the amended theorem at the record `{BB: 1}`. -/
theorem c5_amended_witness :
    (calculate_basic_stats walkOnlyRecord).AVG = 0 ∧
    (calculate_basic_stats walkOnlyRecord).SLG = 0 ∧
    calculate_iso walkOnlyRecord = 0 ∧
    (calculate_basic_stats walkOnlyRecord).OBP = 1 := by
  have h := c5_amended walkOnlyRecord (by norm_num [walkOnlyRecord])
  refine ⟨h.1, h.2.1, h.2.2.1, ?_⟩
  rw [h.2.2.2.1]
  norm_num [walkOnlyRecord]

/-- Claim C6, counterexample: the record `{AB: 1, H: 1}` lacks the `'1B'`
key; `calculate_woba` resolves its singles as `stats.get('1B', 0) = 0`
(line 71), giving wOBA `0`, whereas the claimed resolution
`H - 2B - 3B - HR = 1` would give `888/1000`. -/
theorem c6_counterexample :
    singleHitRecord.oneB = none ∧
    calculate_woba singleHitRecord = 0 ∧
    wobaClaimedSingles singleHitRecord = 888/1000 ∧
    calculate_woba singleHitRecord ≠ wobaClaimedSingles singleHitRecord := by
  refine ⟨rfl, ?_, ?_, ?_⟩ <;>
    norm_num [calculate_woba, wobaClaimedSingles, wobaSingles,
      claimedSingles, singleHitRecord, woba_weights]

/-- Claim C6, amended: the two singles resolutions differ and neither
clamps.  For a record lacking the `'1B'` key, `calculate_basic_stats`
resolves singles as `H - 2B - 3B - HR` used as-is (a negative result is
not replaced by 0), while `calculate_woba` resolves singles as `0`. -/
theorem c6_amended (s : BattingStats) (h : s.oneB = none) :
    basicSingles s = s.H - s.twoB - s.threeB - s.HR ∧ wobaSingles s = 0 := by
  simp [basicSingles, wobaSingles, h]

/-- Claim C6, witness for the amended theorem at the inconsistent record
`{AB: 1, '2B': 1}`, whose computed singles are `-1` (negative, used
as-is). -/
theorem c6_amended_witness :
    basicSingles inconsistentRecord = -1 ∧
    wobaSingles inconsistentRecord = 0 := by
  have h := c6_amended inconsistentRecord rfl
  refine ⟨?_, h.2⟩
  rw [h.1]
  norm_num [inconsistentRecord]

/-- Claim C7, confirmed: `calculate_iso` returns exactly
`SLG - AVG` as produced by `calculate_basic_stats` on the same record —
the source computes precisely this difference, so the identity holds
exactly for every record, negative results included. -/
theorem c7_iso_identity (s : BattingStats) :
    calculate_iso s =
      (calculate_basic_stats s).SLG - (calculate_basic_stats s).AVG :=
  rfl

/-- Claim C8, confirmed: the `K_BB_ratio` entry of
`calculate_pitcher_metrics` equals `K/BB` when `BB > 0`, equals the
finite value `K` when `BB = 0` and `K > 0`, and equals `0` when
`BB = 0` and `K = 0`. -/
theorem c8_k_bb_cases (p : PitchingStats) :
    (0 < p.BB → (calculate_pitcher_metrics p).KBB = p.K / p.BB) ∧
    (p.BB = 0 → 0 < p.K → (calculate_pitcher_metrics p).KBB = p.K) ∧
    (p.BB = 0 → p.K = 0 → (calculate_pitcher_metrics p).KBB = 0) := by
  refine ⟨fun h => ?_, fun h0 hk => ?_, fun h0 hk => ?_⟩ <;>
    simp [calculate_pitcher_metrics, *]

/-- Claim C8, witness for all three cases of the confirmed theorem:
`{BB: 2, K: 6}` gives ratio `3`, `{K: 6}` gives `6`, and the all-zero
pitcher gives `0`. -/
theorem c8_k_bb_witness :
    (calculate_pitcher_metrics strikeoutPitcher).KBB = 3 ∧
    (calculate_pitcher_metrics noWalkPitcher).KBB = 6 ∧
    (calculate_pitcher_metrics zeroPitcher).KBB = 0 := by
  refine ⟨?_, ?_, ?_⟩
  · have h := (c8_k_bb_cases strikeoutPitcher).1 (by norm_num [strikeoutPitcher])
    rw [h]; norm_num [strikeoutPitcher]
  · have h := (c8_k_bb_cases noWalkPitcher).2.1 (by norm_num [noWalkPitcher])
      (by norm_num [noWalkPitcher])
    rw [h]; norm_num [noWalkPitcher]
  · exact (c8_k_bb_cases zeroPitcher).2.2 (by norm_num [zeroPitcher])
      (by norm_num [zeroPitcher])

/-- For one metric, swapping the two players negates the `difference`
field of the comparison entry. -/
theorem compareMetric_difference_neg (s1 s2 : BattingStats) (m : MetricName) :
    (compareMetric s1 s2 m).difference = -((compareMetric s2 s1 m).difference) := by
  simp [compareMetric]

/-- Claim C9, confirmed: for every pair of records and every requested
metric list, the `difference` fields produced by `compare_players A B`
are the exact negatives, entry by entry, of those produced by
`compare_players B A`. -/
theorem c9_difference_antisymmetry (s1 s2 : BattingStats)
    (metrics : List MetricName) :
    (compare_players s1 s2 metrics).map (fun e => e.2.difference) =
      (compare_players s2 s1 metrics).map (fun e => -(e.2.difference)) := by
  induction metrics with
  | nil => rfl
  | cons m t ih =>
    simpa [compare_players, compareMetric_difference_neg s1 s2 m] using ih

/-- Claim C10, confirmed: `calculate_war_approximation` never reads its
`fielding_stats` parameter, so any two values of it (including `None`)
yield the same WAR value for the same batting record and position. -/
theorem c10_war_fielding_independent (batting : BattingStats)
    (position : String) (f1 f2 : Option StatDict) :
    calculate_war_approximation batting f1 position =
      calculate_war_approximation batting f2 position :=
  rfl
